import Mathlib

/-!
Verification of the s3-active-storage compliance suite (Python sources under
`compliance/`) against its natural-language specification.

The Python code is shallowly embedded: pure functions become Lean functions,
fallible code returns `Except PyErr`, numpy arrays become flat lists of exact
rational values together with a dtype, a shape and a missing-data mask, and
external collaborators (numpy's random generators, gzip/zlib/numcodecs, and
`os.urandom`) are passed in as explicit function parameters.
-/

namespace SASCS

/-- Python exception classes that the embedded code can raise. -/
inductive PyErr
| typeError
| keyError
| valueError
| attributeError
| assertionError
| indexError
deriving DecidableEq, Repr

/-- The numpy dtypes admitted by `ALLOWED_DTYPES` in `compliance/config.py`. -/
inductive Dtype
| int32
| int64
| uint32
| uint64
| float32
| float64
deriving DecidableEq, Repr

/-- `np.dtype(d).itemsize` — element width in bytes. -/
def itemsize : Dtype → Nat
| .int32 => 4
| .int64 => 8
| .uint32 => 4
| .uint64 => 8
| .float32 => 4
| .float64 => 8

/-- The string name of a dtype, as numpy prints it. -/
def dtypeName : Dtype → String
| .int32 => "int32"
| .int64 => "int64"
| .uint32 => "uint32"
| .uint64 => "uint64"
| .float32 => "float32"
| .float64 => "float64"

/-- Parse the dtype names used by the suite (`np.dtype(s)`); any other string
makes numpy raise, which the embedding reports as `none`. -/
def dtypeOfString : String → Option Dtype
| "int32" => some .int32
| "int64" => some .int64
| "uint32" => some .uint32
| "uint64" => some .uint64
| "float32" => some .float32
| "float64" => some .float64
| _ => none

/-- Memory order of a reshape: row-major "C" or column-major "F". -/
inductive Order
| C
| F
deriving DecidableEq, Repr

/-- A (possibly masked) numpy array: a dtype, a shape, the flat data in C
order, and a flat boolean mask (`true` = element is missing).  A plain
`ndarray` is an `MArr` whose mask is all `false`.  Element values are exact
rationals; the suite's claims never depend on IEEE floating-point rounding,
so float dtypes carry exact values as well. -/
structure MArr where
  dtype : Dtype
  shape : List Nat
  data : List Rat
  mask : List Bool
deriving DecidableEq, Repr

/-- `ma.count(arr)`: the number of unmasked elements of the whole array. -/
def maCount (arr : MArr) : Nat :=
  arr.mask.count false

/-- The unmasked element values of an array, in C order. -/
def unmaskedVals (arr : MArr) : List Rat :=
  (arr.data.zip arr.mask).filterMap (fun p => if p.2 then none else some p.1)

/-- Truncation toward zero, as a C integer cast does (`astype` to an int kind). -/
def ratTrunc (q : Rat) : Int :=
  q.num / (q.den : Int)

/-- Reduce an integer into the unsigned range of `bits` bits. -/
def wrapUnsigned (bits : Nat) (z : Int) : Int :=
  z.emod ((2 : Int) ^ bits)

/-- Reduce an integer into the signed two-complement range of `bits` bits. -/
def wrapSigned (bits : Nat) (z : Int) : Int :=
  (z + (2 : Int) ^ (bits - 1)).emod ((2 : Int) ^ bits) - (2 : Int) ^ (bits - 1)

/-- Cast a value to a dtype, wrapping integer kinds as numpy does; float kinds
keep the exact value (IEEE rounding is not modelled — no claim exercises it). -/
def dtypeCast (dt : Dtype) (q : Rat) : Rat :=
  match dt with
  | .int32 => (wrapSigned 32 (ratTrunc q) : Int)
  | .int64 => (wrapSigned 64 (ratTrunc q) : Int)
  | .uint32 => (wrapUnsigned 32 (ratTrunc q) : Int)
  | .uint64 => (wrapUnsigned 64 (ratTrunc q) : Int)
  | .float32 => q
  | .float64 => q

/-- `x.astype(dtype)` on a scalar: integer kinds truncate toward zero and wrap;
float kinds keep the value (exact-rational model). -/
def astype (dt : Dtype) (q : Rat) : Rat :=
  match dt with
  | .float32 => q
  | .float64 => q
  | _ => dtypeCast dt q

/-- The `np.ma.masked` singleton: a 0-dimensional fully masked scalar.  Its
underlying dtype is float64, which is what numpy reports for the constant. -/
def maskedConstant : MArr :=
  ⟨Dtype.float64, [], [0], [true]⟩

/-- `ma.sum(arr, axis=None, dtype=arr.dtype)`: sum of the unmasked elements,
cast to the input dtype; a fully masked array yields `np.ma.masked`. -/
def maSum (arr : MArr) : MArr :=
  match unmaskedVals arr with
  | [] => maskedConstant
  | v :: vs => ⟨arr.dtype, [], [dtypeCast arr.dtype (vs.foldl (· + ·) v)], [false]⟩

/-- `ma.max(arr, axis=None)`: maximum of the unmasked elements, input dtype;
a fully masked array yields `np.ma.masked`. -/
def maMax (arr : MArr) : MArr :=
  match unmaskedVals arr with
  | [] => maskedConstant
  | v :: vs => ⟨arr.dtype, [], [vs.foldl max v], [false]⟩

/-- `ma.min(arr, axis=None)`: minimum of the unmasked elements, input dtype;
a fully masked array yields `np.ma.masked`. -/
def maMin (arr : MArr) : MArr :=
  match unmaskedVals arr with
  | [] => maskedConstant
  | v :: vs => ⟨arr.dtype, [], [vs.foldl min v], [false]⟩

/-- `np.array(ma.count(arr, axis=None))`: a 0-dimensional array holding the
unmasked-element count; its dtype is the platform default integer, int64. -/
def npArrayCount (arr : MArr) : MArr :=
  ⟨Dtype.int64, [], [(maCount arr : Rat)], [false]⟩

/-! The values of the `OPERATION_FUNCS` dict of `compliance/config.py`.  Each
Python value is a lambda with the two required positional parameters
`(arr, axis)`; every call in the suite concerns `axis=None` only (the dict's
own TODO notes that the axis argument is unused), so the axis parameter is
embedded as `Option Empty`, whose only value is `none`. -/

/-- `"select": lambda arr, axis: arr` — slicing is done beforehand, so the
select operation is a no-op. -/
def op_select (arr : MArr) (_axis : Option Empty) : MArr := arr

/-- `"sum": lambda arr, axis: ma.sum(arr, axis=axis, dtype=arr.dtype)`. -/
def op_sum (arr : MArr) (axis : Option Empty) : MArr :=
  match axis with
  | none => maSum arr
  | some e => nomatch e

/-- `"count": lambda arr, axis: np.array(ma.count(arr, axis=axis))`. -/
def op_count (arr : MArr) (axis : Option Empty) : MArr :=
  match axis with
  | none => npArrayCount arr
  | some e => nomatch e

/-- `"max": lambda arr, axis: ma.max(arr, axis=axis)`. -/
def op_max (arr : MArr) (axis : Option Empty) : MArr :=
  match axis with
  | none => maMax arr
  | some e => nomatch e

/-- `"min": lambda arr, axis: ma.min(arr, axis=axis)`. -/
def op_min (arr : MArr) (axis : Option Empty) : MArr :=
  match axis with
  | none => maMin arr
  | some e => nomatch e

/-- The keys of `OPERATION_FUNCS`, in dict order. -/
def OPERATION_FUNCS_keys : List String :=
  ["select", "sum", "count", "max", "min"]

/-- Dictionary lookup in `OPERATION_FUNCS` (`compliance/config.py`): maps an
operation name to its two-parameter lambda, `none` for an absent key. -/
def OPERATION_FUNCS (op : String) : Option (MArr → Option Empty → MArr) :=
  if op = "select" then some op_select
  else if op = "sum" then some op_sum
  else if op = "count" then some op_count
  else if op = "max" then some op_max
  else if op = "min" then some op_min
  else none

/-- Python call semantics for applying a function that declares exactly two
required positional parameters to a single positional argument: the call
raises `TypeError: missing 1 required positional argument` before the body
can run, so no result value exists. -/
def pyCall1of2 {α β γ : Type} (_f : α → β → γ) (_x : α) : Except PyErr γ :=
  .error .typeError

/-- `perform_operation(data, operation)` from
`compliance/test_basic_operations.py`:
`return OPERATION_FUNCS[operation](data)` — a missing key raises `KeyError`,
and a present key is a two-parameter lambda applied to one argument. -/
def perform_operation (data : MArr) (operation : String) : Except PyErr MArr :=
  match OPERATION_FUNCS operation with
  | some f => pyCall1of2 f data
  | none => .error .keyError

/-! Missing-data descriptors (`compliance/missing.py`).  The abstract base
class `Missing` with its five dataclass subclasses becomes a closed variant
type; `p_missing = 0.2` is the class attribute shared by all variants. -/

/-- The `Missing` hierarchy: `MissingValue`, `MissingValues`, `ValidMax`,
`ValidMin`, `ValidRange`. -/
inductive Missing
| missingValue (value : Rat)
| missingValues (values : List Rat)
| validMax (max : Rat)
| validMin (min : Rat)
| validRange (min max : Rat)
deriving DecidableEq, Repr

/-- The class attribute `p_missing: float = 0.2`. -/
def Missing.p_missing : Rat := 1 / 5

/-- The masking predicate of each variant: `ma.masked_values` (equality — the
suite only uses integral sentinel values, so the float closeness tolerance of
`masked_values` is equality in this exact model), `np.isin`,
`ma.masked_greater`, `ma.masked_less`, `ma.masked_outside`. -/
def Missing.maskPred : Missing → Rat → Bool
| .missingValue v => fun x => x == v
| .missingValues vs => fun x => vs.contains x
| .validMax mx => fun x => mx < x
| .validMin mn => fun x => x < mn
| .validRange mn mx => fun x => x < mn || mx < x

/-- `missing.mask(arr)`: mask every element matched by the predicate, keeping
any mask the input already carries. -/
def Missing.mask (m : Missing) (arr : MArr) : MArr :=
  { arr with mask := (arr.data.zip arr.mask).map (fun p => p.2 || m.maskPred p.1) }

/-- The interface of `np.random.default_rng`: `default_rng(seed)` builds a
fresh generator state, and `choice(rng, shape, p)` draws a boolean array of
the given shape where `True` has probability `p` (the call
`rng.choice([True, False], arr.shape, p=[p, 1 - p])`), returning the advanced
generator state.  The concrete PCG64 stream is an external collaborator, so
it is a parameter of the embedding. -/
structure PRng (ρ : Type) where
  default_rng : Nat → ρ
  choice : ρ → List Nat → Rat → List Bool × ρ

/-- `ma.filled(ma.array(arr, mask=mask, fill_value=v))`: overwrite with `v`
every position whose (combined) mask is set; the result is a plain ndarray,
so its own mask is all `false`. -/
def fill_step (arr : MArr) (mask : List Bool) (v : Rat) : MArr :=
  { arr with
    data := (List.range arr.data.length).map
      (fun i => if arr.mask.getD i false || mask.getD i false then v else arr.data.getD i 0)
    mask := List.replicate arr.data.length false }

/-- The loop body of module-level `make_holes` (`compliance/missing.py`): for
each fill value draw a boolean mask over the array's shape and overwrite the
selected positions with that fill value. -/
def make_holes_loop {ρ : Type} (prng : PRng ρ) (p : Rat) :
    List Rat → MArr → ρ → MArr
| [], arr, _ => arr
| v :: vs, arr, rng =>
  let mr := prng.choice rng arr.shape p
  make_holes_loop prng p vs (fill_step arr mr.1 v) mr.2

/-- `make_holes(arr, p_missing, fill_values)` from `compliance/missing.py`:
seeds a fresh generator with `default_rng(10)`, divides `p_missing` by the
number of fill values, and runs the overwrite loop. -/
def make_holes {ρ : Type} (prng : PRng ρ) (arr : MArr) (p_missing : Rat)
    (fill_values : List Rat) : MArr :=
  make_holes_loop prng (p_missing / (fill_values.length : Rat)) fill_values arr
    (prng.default_rng 10)

/-- The sequence of boolean masks the `make_holes` loop draws: one per fill
value, from the fresh `default_rng(10)` stream, each with probability
`p_missing / k`. -/
def drawMasks {ρ : Type} (prng : PRng ρ) (shape : List Nat) (p : Rat) :
    Nat → ρ → List (List Bool)
| 0, _ => []
| n + 1, rng =>
  let mr := prng.choice rng shape p
  mr.1 :: drawMasks prng shape p n mr.2

/-- The masks used by `make_holes prng arr p fills` when `arr` has the given
shape: `k` draws at probability `p / k` from the `default_rng(10)` stream. -/
def holeMasks {ρ : Type} (prng : PRng ρ) (shape : List Nat) (p_missing : Rat)
    (k : Nat) : List (List Bool) :=
  drawMasks prng shape (p_missing / (k : Rat)) k (prng.default_rng 10)

/-- The variant dispatch `missing.make_holes(arr)`: each subclass calls the
module-level `make_holes` with its own sentinel list. -/
def Missing.make_holes {ρ : Type} (prng : PRng ρ) (m : Missing) (arr : MArr) :
    MArr :=
  match m with
  | .missingValue v => SASCS.make_holes prng arr Missing.p_missing [v]
  | .missingValues vs => SASCS.make_holes prng arr Missing.p_missing vs
  | .validMax mx => SASCS.make_holes prng arr Missing.p_missing [mx + 1]
  | .validMin mn => SASCS.make_holes prng arr Missing.p_missing [mn - 1]
  | .validRange mn mx => SASCS.make_holes prng arr Missing.p_missing [mn - 1, mx + 1]

/-- The interface of the legacy global numpy stream used by the generator:
`np.random.seed(s)` replaces the global state, `np.random.rand(n)` draws `n`
uniform values in `[0, 1)` and advances the state. -/
structure NpRng (σ : Type) where
  seedState : Nat → σ
  rand : σ → Nat → List Rat × σ

/-- Python truthiness of an optional list (`if shape:`): `None` and the empty
list are falsy. -/
def optListTruthy {α : Type} : Option (List α) → Bool
| some l => !l.isEmpty
| none => false

/-- Python truthiness of an optional number (`if size:`): `None` and `0` are
falsy. -/
def optNatTruthy : Option Nat → Bool
| some n => !(n == 0)
| none => false

/-- `generate_test_array(dtype, shape, size, missing)` from
`compliance/test_basic_operations.py`.  The incoming global-stream state `g`
is discarded by the initial `np.random.seed(10)`; the element count comes
from shape/size (with the suite's assertion), the raw draw is scaled by 10
and cast to the dtype, and a missing descriptor punches holes.  Returns the
array together with the outgoing global-stream state. -/
def generate_test_array {σ ρ : Type} (np : NpRng σ) (prng : PRng ρ) (g : σ)
    (dtype : Dtype) (shape : Option (List Nat)) (size : Option Nat)
    (missing : Option Missing) : Except PyErr (MArr × σ) :=
  -- np.random.seed(10): reseed, making the draw independent of g
  let g1 := np.seedState 10
  let itemsz := itemsize dtype
  let numElems : Except PyErr Nat :=
    if optListTruthy shape then
      let n := (shape.getD []).prod
      if optNatTruthy size then
        if n = size.getD 0 / itemsz then .ok n else .error .assertionError
      else .ok n
    else if optNatTruthy size then .ok (size.getD 0 / itemsz)
    else .ok 100
  match numElems with
  | .error e => .error e
  | .ok n =>
    let vg := np.rand g1 n
    let vals := vg.1.map (fun v => astype dtype (10 * v))
    let data : MArr := ⟨dtype, [vals.length], vals, List.replicate vals.length false⟩
    match missing with
    | some m => .ok (Missing.make_holes prng m data, vg.2)
    | none => .ok (data, vg.2)

/-! Multi-dimensional index arithmetic for C ("C") and Fortran ("F") order. -/

/-- Row-major (C-order) linearization of a multi-index. -/
def cLinear : List Nat → List Nat → Nat
| _, [] => 0
| [], _ => 0
| _d :: ds, i :: is' => i * ds.prod + cLinear ds is'

/-- Row-major multi-index of a flat position. -/
def cMulti : List Nat → Nat → List Nat
| [], _ => []
| _d :: ds, i => i / ds.prod :: cMulti ds (i % ds.prod)

/-- Column-major (F-order) linearization of a multi-index. -/
def fLinear : List Nat → List Nat → Nat
| _, [] => 0
| [], _ => 0
| d :: ds, i :: is' => i + d * fLinear ds is'

/-- Column-major multi-index of a flat position. -/
def fMulti : List Nat → Nat → List Nat
| [], _ => []
| d :: ds, i => i % d :: fMulti ds (i / d)

/-- Read a C-order flat buffer of the given shape in the requested order
(`np.ravel(order)`). -/
def ravelOrd {α : Type} (dflt : α) (shape : List Nat) (data : List α) :
    Order → List α
| .C => data
| .F => (List.range data.length).map (fun j => data.getD (cLinear shape (fMulti shape j)) dflt)

/-- Write a flat element sequence into a C-order buffer of the given shape in
the requested order (the filling half of `reshape(order=...)`). -/
def unravelOrd {α : Type} (dflt : α) (shape : List Nat) (flat : List α) :
    Order → List α
| .C => flat
| .F => (List.range flat.length).map (fun i => flat.getD (fLinear shape (cMulti shape i)) dflt)

/-- `arr.reshape(newshape, order=order)`: numpy raises `ValueError` when the
element counts disagree; otherwise the elements are read from `arr` and
written to the new shape, both in the requested order. -/
def reshape_exact (arr : MArr) (newshape : List Nat) (order : Order) :
    Except PyErr MArr :=
  if newshape.prod = arr.data.length then
    .ok ⟨arr.dtype, newshape,
      unravelOrd 0 newshape (ravelOrd 0 arr.shape arr.data order) order,
      unravelOrd false newshape (ravelOrd false arr.shape arr.mask order) order⟩
  else .error .valueError

/-- `data.reshape(*(shape or data.shape), order=order)` from
`calculate_expected_result`: Python `or` falls back to the array's own shape
when `shape` is `None` or empty. -/
def reshape_np (arr : MArr) (shape : Option (List Nat)) (order : Order) :
    Except PyErr MArr :=
  let tgt := match shape with
    | some s => if s.isEmpty then arr.shape else s
    | none => arr.shape
  reshape_exact arr tgt order

/-- The index sequence denoted by `slice(start, stop, step)` applied to a
dimension of length `dim`, following CPython's `PySlice_AdjustIndices`
(negative indices count from the end, bounds are clamped, the step may be any
non-zero integer); `none` for a zero step (`ValueError`). -/
def sliceIndices (start stop step : Int) (dim : Nat) : Option (List Nat) :=
  if step = 0 then none
  else
    let d : Int := (dim : Int)
    let neg : Bool := step < 0
    let start1 : Int :=
      if start < 0 then (if start + d < 0 then (if neg then -1 else 0) else start + d)
      else if start ≥ d then (if neg then d - 1 else d) else start
    let stop1 : Int :=
      if stop < 0 then (if stop + d < 0 then (if neg then -1 else 0) else stop + d)
      else if stop ≥ d then (if neg then d - 1 else d) else stop
    let len : Nat :=
      if neg then (if stop1 < start1 then ((start1 - stop1 - 1) / (-step) + 1).toNat else 0)
      else (if start1 < stop1 then ((stop1 - start1 - 1) / step + 1).toNat else 0)
    some ((List.range len).map (fun i => (start1 + step * (i : Int)).toNat))

/-- Per-dimension index lists for `data[slices]`: sliced dimensions take their
slice's indices, trailing unsliced dimensions are kept whole. -/
def selectIdx : List (Int × Int × Int) → List Nat → Option (List (List Nat))
| [], ds => some (ds.map List.range)
| t :: ts, d :: ds =>
  match sliceIndices t.1 t.2.1 t.2.2 d, selectIdx ts ds with
  | some l, some r => some (l :: r)
  | _, _ => none
| _ :: _, [] => none

/-- All multi-indices of the given per-dimension index lists, in C order. -/
def cartesianIdx : List (List Nat) → List (List Nat)
| [] => [[]]
| l :: ls => l.flatMap (fun i => (cartesianIdx ls).map (i :: ·))

/-- `data[tuple(slice(*s) for s in selection)]`: numpy basic slicing.  Too
many indices raise `IndexError`; a zero step raises `ValueError`. -/
def select_np (arr : MArr) (sel : List (Int × Int × Int)) : Except PyErr MArr :=
  if sel.length > arr.shape.length then .error .indexError
  else
    match selectIdx sel arr.shape with
    | none => .error .valueError
    | some idxs =>
      let newshape := idxs.map List.length
      let positions := (cartesianIdx idxs).map (cLinear arr.shape)
      .ok ⟨arr.dtype, newshape,
        positions.map (fun j => arr.data.getD j 0),
        positions.map (fun j => arr.mask.getD j false)⟩

/-- Python truthiness of an optional selection (`if selection:`). -/
def selTruthy {α : Type} : Option (List α) → Bool
| some l => !l.isEmpty
| none => false

/-- `np.array_equal(a, b)`: equal shapes and equal element values.  (Both
negative-control uses sit after a call that always raises, so this comparison
is never reached by the suite.) -/
def np_array_equal (a b : MArr) : Bool :=
  a.shape == b.shape && a.data == b.data

/-- `calculate_expected_result(data, operation, shape, selection, order,
missing)` from `compliance/test_basic_operations.py`: reshape, compute the
unmasked negative control and mask when a missing descriptor is present,
compute the pre-selection negative control and slice when a selection is
present, run the main operation, check the two negative-control assertions,
and return the transformed array with the operation result. -/
def calculate_expected_result (data : MArr) (operation : String)
    (shape : Option (List Nat)) (selection : Option (List (Int × Int × Int)))
    (order : Order) (missing : Option Missing) :
    Except PyErr (MArr × MArr) :=
  match reshape_np data shape order with
  | .error e => .error e
  | .ok data1 =>
    let maskStep : Except PyErr (Option MArr × MArr) :=
      match missing with
      | some m =>
        match perform_operation data1 operation with
        | .error e => .error e
        | .ok u => .ok (some u, m.mask data1)
      | none => .ok (none, data1)
    match maskStep with
    | .error e => .error e
    | .ok ur =>
      let selStep : Except PyErr (Option MArr × MArr) :=
        if selTruthy selection then
          match perform_operation ur.2 operation with
          | .error e => .error e
          | .ok u =>
            match select_np ur.2 (selection.getD []) with
            | .error e => .error e
            | .ok d => .ok (some u, d)
        else .ok (none, ur.2)
      match selStep with
      | .error e => .error e
      | .ok sr =>
        match perform_operation sr.2 operation with
        | .error e => .error e
        | .ok operation_result =>
          -- assert not np.array_equal(operation_result, unmasked_result)
          if missing.isSome && operation != "select" &&
              np_array_equal operation_result (ur.1.getD operation_result) then
            .error .assertionError
          -- assert not np.array_equal(operation_result, unselected_result)
          else if selTruthy selection && !(operation == "min" || operation == "max") &&
              np_array_equal operation_result (sr.1.getD operation_result) then
            .error .assertionError
          else .ok (sr.2, operation_result)

/-! The object encoder (`generate_object_data`) and the compression/filter
pipeline (`filter_pipeline` in `compliance/utils.py`).  gzip, zlib and the
numcodecs shuffle codec are external libraries, so their byte transforms are
parameters of the embedding. -/

/-- The external byte-transform collaborators: `gzip.compress`,
`zlib.compress`, and `numcodecs.Shuffle(element_size).encode`. -/
structure ExternalCodecs where
  gzipCompress : List Nat → List Nat
  zlibCompress : List Nat → List Nat
  shuffleEncode : Nat → List Nat → List Nat

/-- The filter loop of `filter_pipeline`: apply each listed filter in order;
the only recognized filter is `"shuffle"`, anything else raises
`AssertionError`. -/
def apply_filters (ext : ExternalCodecs) (element_size : Nat) :
    List String → List Nat → Except PyErr (List Nat)
| [], d => .ok d
| f :: fs, d =>
  if f = "shuffle" then apply_filters ext element_size fs (ext.shuffleEncode element_size d)
  else .error .assertionError

/-- `filter_pipeline(data, compression, filters, element_size)` from
`compliance/utils.py`: run the filter loop over `filters or []`, then apply
gzip or zlib compression; `None` means no compression and any other name
raises `AssertionError`. -/
def filter_pipeline (ext : ExternalCodecs) (data : List Nat)
    (compression : Option String) (filters : Option (List String))
    (element_size : Nat) : Except PyErr (List Nat) :=
  match apply_filters ext element_size (filters.getD []) data with
  | .error e => .error e
  | .ok d =>
    if compression = some "gzip" then .ok (ext.gzipCompress d)
    else if compression = some "zlib" then .ok (ext.zlibCompress d)
    else if compression ≠ none then .error .assertionError
    else .ok d

/-- The `n` little-endian bytes of a value already reduced mod `2 ^ (8 n)`. -/
def leBytes (n : Nat) (v : Nat) : List Nat :=
  (List.range n).map (fun i => v / 256 ^ i % 256)

/-- The byte encoding of one element in native (little-endian) order.  Integer
kinds encode their two-complement pattern; float kinds are carried as the
little-endian bytes of the truncated value (IEEE bit patterns are not
modelled — no claim depends on float payload bytes, only on their length). -/
def encodeElem (dt : Dtype) (q : Rat) : List Nat :=
  leBytes (itemsize dt) ((ratTrunc q).emod ((2 : Int) ^ (8 * itemsize dt))).toNat

/-- `data.tobytes(order)`: ravel in the requested order and concatenate the
per-element byte encodings. -/
def arr_tobytes (arr : MArr) (order : Order) : List Nat :=
  (ravelOrd 0 arr.shape arr.data order).flatMap (encodeElem arr.dtype)

/-- `data.byteswap().tobytes()`: as `arr_tobytes`, but each element's bytes
are reversed (the opposite byte order). -/
def arr_tobytes_swapped (arr : MArr) (order : Order) : List Nat :=
  (ravelOrd 0 arr.shape arr.data order).flatMap
    (fun q => (encodeElem arr.dtype q).reverse)

/-- The guard `if byte_order and byte_order != sys.byteorder:` — the data is
byte-swapped exactly when a byte order is requested and differs from the
native one. -/
def byteswapNeeded (byte_order : Option String) (sysByteorder : String) : Bool :=
  match byte_order with
  | some b => b != sysByteorder
  | none => false

/-- `data.tobytes()` as `generate_object_data` serializes it: the bytes of
the (possibly byte-swapped) array. -/
def objectDataBytes (data : MArr) (byte_order : Option String)
    (sysByteorder : String) : List Nat :=
  if byteswapNeeded byte_order sysByteorder then arr_tobytes_swapped data Order.C
  else arr_tobytes data Order.C

/-- `generate_object_data(data, offset, trailing, compression, filters, dtype,
byte_order)` from `compliance/test_basic_operations.py`: byte-swap when the
requested byte order differs from `sys.byteorder`, serialize, run the filter
pipeline, and pad with `offset` leading and `trailing` trailing bytes from
`os.urandom` (an external collaborator, passed as `urandom`).  Returns the
object bytes and the length of the filtered payload. -/
def generate_object_data (ext : ExternalCodecs) (urandom : Nat → List Nat)
    (sysByteorder : String) (data : MArr) (offset trailing : Option Nat)
    (compression : Option String) (filters : Option (List String))
    (dtype : Dtype) (byte_order : Option String) :
    Except PyErr (List Nat × Nat) :=
  let data_bytes := objectDataBytes data byte_order sysByteorder
  let element_size := itemsize dtype
  match filter_pipeline ext data_bytes compression filters element_size with
  | .error e => .error e
  | .ok filtered_data =>
    .ok (urandom (offset.getD 0) ++ filtered_data ++ urandom (trailing.getD 0),
      filtered_data.length)

/-! The response validator: the assertion block of `test_basic_operation`
(`compliance/test_basic_operations.py`, lines 300-328). -/

/-- Config toggle `TEST_X_ACTIVESTORAGE_COUNT_HEADER` (`compliance/config.py`). -/
def TEST_X_ACTIVESTORAGE_COUNT_HEADER : Bool := true

/-- Config toggle `TEST_BYTE_ORDER` (`compliance/config.py`). -/
def TEST_BYTE_ORDER : Bool := true

/-- A proxy response as the validator consumes it.  Header values are the raw
strings, except `x-activestorage-shape`, which the test immediately passes
through the external `json.loads` and only ever uses parsed; it is therefore
carried as its parsed integer list. -/
structure Response where
  status_code : Int
  content : List Nat
  dtype_header : String
  shape_header : List Int
  count_header : String
  byte_order_header : String
  content_length_header : String
deriving DecidableEq, Repr

/-- The unsigned value of a little-endian byte list. -/
def leValue : List Nat → Nat
| [] => 0
| b :: bs => b % 256 + 256 * leValue bs

/-- Decode one element from its native little-endian bytes: signed kinds take
the two-complement reading, unsigned kinds the plain one; float bytes are
read as their unsigned value (IEEE decoding is not modelled — no claim
exercises float payloads). -/
def decodeLE (dt : Dtype) (bytes : List Nat) : Int :=
  let u : Int := (leValue bytes : Int)
  match dt with
  | .int32 => wrapSigned 32 u
  | .int64 => wrapSigned 64 u
  | .uint32 => u
  | .uint64 => u
  | .float32 => u
  | .float64 => u

/-- `np.frombuffer(content, dtype)`: reinterpret a byte string as a flat
array; a length that is not a multiple of the item size raises. -/
def frombuffer (content : List Nat) (dt : Dtype) : Option (List Rat) :=
  let n := itemsize dt
  if content.length % n = 0 then
    some ((List.range (content.length / n)).map (fun i =>
      (decodeLE dt ((content.drop (i * n)).take n) : Rat)))
  else none

/-- One element of `np.allclose(a, b)`: the comparison
`|x - y| ≤ atol + rtol * |y|` with numpy's defaults `rtol = 1e-5` and
`atol = 1e-8`.  The comparison is exact, cross-multiplied onto the two
rationals' numerators and denominators so that it evaluates by integer
arithmetic; `isClose_iff` below states the equivalence with the textbook
formula. -/
def isClose (x y : Rat) : Bool :=
  (x.num * (y.den : Int) - y.num * (x.den : Int)).natAbs * 100000000 ≤
    ((y.den : Nat) + 1000 * y.num.natAbs) * x.den

/-- `np.allclose(a, b)` with numpy's default tolerances, on arrays of equal
shape. -/
def np_allclose (a b : MArr) : Bool :=
  a.shape == b.shape && ((a.data.zip b.data).all (fun p => isClose p.1 p.2))

/-- A shape header is usable for `reshape` when all entries are non-negative
(the suite's expected shapes always are; the `-1` inference form of numpy
reshape is not modelled). -/
def shapeOfHeader (l : List Int) : Option (List Nat) :=
  if l.all (fun z => 0 ≤ z) then some (l.map Int.toNat) else none

/-- The validator of `test_basic_operation`: a response is accepted exactly
when every assertion between lines 300 and 328 passes — status 200, the
dtype header equals the request dtype (`int64` for count), the shape header
equals the expected result's shape, the count header (when enabled) equals
`ma.count(array_data)`, the byte-order header (when enabled) is "little", the
body reinterpreted per the declared dtype and reshaped per the declared shape
is `allclose` to the expected result, and the content length equals the byte
length of the expected result. -/
def validator_accepts (resp : Response) (request_dtype : String)
    (operation : String) (order : Order) (array_data : MArr)
    (operation_result : MArr) : Bool :=
  resp.status_code == 200 &&
  resp.dtype_header == (if operation != "count" then request_dtype else "int64") &&
  resp.shape_header == operation_result.shape.map Int.ofNat &&
  (!TEST_X_ACTIVESTORAGE_COUNT_HEADER ||
    resp.count_header == toString (maCount array_data)) &&
  (!TEST_BYTE_ORDER || resp.byte_order_header == "little") &&
  (match dtypeOfString resp.dtype_header with
   | none => false
   | some dt =>
     match frombuffer resp.content dt with
     | none => false
     | some vals =>
       match shapeOfHeader resp.shape_header with
       | none => false
       | some ns =>
         match reshape_exact ⟨dt, [vals.length], vals, List.replicate vals.length false⟩ ns order with
         | .error _ => false
         | .ok proxy_result => np_allclose proxy_result operation_result) &&
  resp.content_length_header == toString (arr_tobytes operation_result Order.C).length

/-! The mocked proxy responses of `compliance/mocks.py`.  Python attribute
semantics are explicit: an object is a finite map from attribute names to
values, empty for a freshly allocated instance, and reading an attribute that
has not been assigned raises `AttributeError`. -/

/-- The state `BaseMockResponse.__init__` leaves behind: the three attributes
it assigns. -/
structure MockObj where
  status_code : Int
  headers : List (String × String)
  content : List Nat
deriving DecidableEq, Repr

/-- `BaseMockResponse.__init__(self, status_code, content, headers)`: assigns
the three attributes. -/
def BaseMockResponse_init (status_code : Int) (content : List Nat)
    (headers : List (String × String)) : MockObj :=
  ⟨status_code, headers, content⟩

/-- Reading `self.content` from an attribute map: `AttributeError` when the
attribute has not been assigned yet. -/
def getattrContent (attrs : List (String × List Nat)) : Except PyErr (List Nat) :=
  match attrs.lookup "content" with
  | some v => .ok v
  | none => .error .attributeError

/-- `str(list(shape))`, as Python prints an integer list. -/
def shapeString (shape : List Nat) : String :=
  "[" ++ String.intercalate ", " (shape.map toString) ++ "]"

/-- `MockResponse.__init__(self, status_code, array_data, operation_result,
order)`: computes the local `content`, then builds the headers dict — whose
`content-length` entry reads `self.content`, an attribute that is only
assigned later by `BaseMockResponse.__init__` — and finally calls the base
initializer.  A fresh instance has an empty attribute map. -/
def MockResponse_init (status_code : Int) (array_data : MArr)
    (operation_result : MArr) (order : Order) : Except PyErr MockObj :=
  let content := arr_tobytes operation_result order
  -- "content-length": str(len(self.content)) — self.content is not yet set
  match getattrContent [] with
  | .error e => .error e
  | .ok selfContent =>
    let headers :=
      [("content-type", "application/octet-stream"),
       ("content-length", toString selfContent.length),
       ("x-activestorage-dtype", dtypeName operation_result.dtype),
       ("x-activestorage-shape", shapeString operation_result.shape),
       ("x-activestorage-count", toString (maCount array_data))]
    .ok (BaseMockResponse_init status_code content headers)

/-- The bytes of `json.dumps({"errors": []}).encode()`. -/
def jsonErrorsEmpty : List Nat :=
  "\x7b\"errors\": []\x7d".toList.map Char.toNat

/-- `MockErrorResponse.__init__(self, status_code)`: same shape of bug — the
`content-length` header reads `self.content` before any attribute of the
fresh instance has been assigned. -/
def MockErrorResponse_init (status_code : Int) : Except PyErr MockObj :=
  let content := jsonErrorsEmpty
  match getattrContent [] with
  | .error e => .error e
  | .ok selfContent =>
    let headers :=
      [("content-type", "application/json"),
       ("content-length", toString selfContent.length)]
    .ok (BaseMockResponse_init status_code content headers)

/-! Helper lemmas. -/

/-- The cross-multiplied element test of `np_allclose` is exactly numpy's
closeness formula `|x - y| ≤ atol + rtol * |y|` with `atol = 1e-8` and
`rtol = 1e-5`. -/
lemma isClose_iff (x y : Rat) :
    isClose x y = true ↔ |x - y| ≤ 1 / 100000000 + (1 / 100000) * |y| := by
  have hdx : (0 : ℚ) < (x.den : ℚ) := by exact_mod_cast x.pos
  have hdy : (0 : ℚ) < (y.den : ℚ) := by exact_mod_cast y.pos
  have hsub : x - y =
      (((x.num * (y.den : Int) - y.num * (x.den : Int) : ℤ)) : ℚ) /
        ((x.den : ℚ) * (y.den : ℚ)) := by
    conv_lhs => rw [← Rat.num_div_den x, ← Rat.num_div_den y]
    field_simp
    ring
  have hpos : (0 : ℚ) < (x.den : ℚ) * (y.den : ℚ) := by positivity
  have habs : |x - y| =
      (((x.num * (y.den : Int) - y.num * (x.den : Int)).natAbs : ℕ) : ℚ) /
        ((x.den : ℚ) * (y.den : ℚ)) := by
    rw [hsub, abs_div, abs_of_pos hpos, Int.cast_natAbs, Int.cast_abs]
  have hy : |y| = ((y.num.natAbs : ℕ) : ℚ) / (y.den : ℚ) := by
    conv_lhs => rw [← Rat.num_div_den y]
    rw [abs_div, abs_of_pos hdy, Int.cast_natAbs, Int.cast_abs]
  have hrhs : (1 : ℚ) / 100000000 + (1 / 100000) * (((y.num.natAbs : ℕ) : ℚ) / (y.den : ℚ)) =
      ((y.den : ℚ) + 1000 * ((y.num.natAbs : ℕ) : ℚ)) / (100000000 * (y.den : ℚ)) := by
    field_simp
    ring
  rw [isClose, decide_eq_true_eq, habs, hy, hrhs,
    div_le_div_iff (by positivity) (by positivity), ← Nat.cast_le (α := ℚ)]
  push_cast
  constructor <;> intro h <;> nlinarith [h, hdy]

/-- The filtered unmasked values are as many as the mask's `false` entries,
for a well-formed array (data and mask of equal length). -/
lemma unmaskedVals_length_eq :
    ∀ (ds : List Rat) (ms : List Bool), ds.length = ms.length →
      ((ds.zip ms).filterMap (fun p => if p.2 then none else some p.1)).length =
        ms.count false := by
  intro ds
  induction ds with
  | nil =>
    intro ms h
    cases ms with
    | nil => simp
    | cons b ms => simp at h
  | cons d ds ih =>
    intro ms h
    cases ms with
    | nil => simp at h
    | cons b ms =>
      have h' : ds.length = ms.length := by simpa using h
      cases b <;> simp [List.count_cons, ih ms h']

/-- A well-formed array with a positive unmasked count has an unmasked value. -/
lemma unmaskedVals_ne_nil (arr : MArr) (hlen : arr.data.length = arr.mask.length)
    (h : 0 < maCount arr) : unmaskedVals arr ≠ [] := by
  intro hnil
  have hl := unmaskedVals_length_eq arr.data arr.mask hlen
  rw [show ((arr.data.zip arr.mask).filterMap
      (fun p => if p.2 then none else some p.1)) = unmaskedVals arr from rfl,
    hnil] at hl
  simp only [List.length_nil] at hl
  rw [maCount] at h
  omega

/-- When `perform_operation` fails with `TypeError` on every array,
`calculate_expected_result` can never return: each of its paths calls
`perform_operation` before producing a value. -/
lemma calculate_expected_result_no_ok (operation : String)
    (hop : ∀ a : MArr, perform_operation a operation = .error .typeError) :
    ∀ (data : MArr) (shape : Option (List Nat))
      (selection : Option (List (Int × Int × Int))) (order : Order)
      (missing : Option Missing) (r : MArr × MArr),
      calculate_expected_result data operation shape selection order missing ≠ .ok r := by
  intro data shape selection order missing r h
  simp only [calculate_expected_result] at h
  cases hres : reshape_np data shape order with
  | error e => simp only [hres] at h; exact Except.noConfusion h
  | ok data1 =>
    simp only [hres] at h
    cases missing with
    | some m => simp only [hop] at h; exact Except.noConfusion h
    | none =>
      by_cases hst : selTruthy selection = true
      · simp only [hst, if_true, hop] at h
        exact Except.noConfusion h
      · simp only [Bool.not_eq_true] at hst
        simp only [hst, Bool.false_eq_true, if_false, hop] at h
        exact Except.noConfusion h

/-- C2: every entry of OPERATION_FUNCS is a lambda with the two required
positional parameters (arr, axis), while perform_operation applies it to the
single argument data; the call therefore raises TypeError for every operation
name in the table and every array, and calculate_expected_result can produce
no result for any such operation. -/
theorem C2_perform_operation_raises_typeerror :
    ∀ op ∈ OPERATION_FUNCS_keys,
      (∀ data : MArr, perform_operation data op = .error .typeError) ∧
      (∀ (data : MArr) (shape : Option (List Nat))
        (selection : Option (List (Int × Int × Int))) (order : Order)
        (missing : Option Missing) (r : MArr × MArr),
        calculate_expected_result data op shape selection order missing ≠ .ok r) := by
  intro op hop
  have hperf : ∀ data : MArr, perform_operation data op = .error .typeError := by
    have hcases : op = "select" ∨ op = "sum" ∨ op = "count" ∨ op = "max" ∨ op = "min" := by
      simpa [OPERATION_FUNCS_keys] using hop
    rcases hcases with rfl | rfl | rfl | rfl | rfl <;> exact fun data => rfl
  exact ⟨hperf, fun data shape selection order missing r =>
    calculate_expected_result_no_ok op hperf data shape selection order missing r⟩

/-- C2 witness: the sum operation at a concrete three-element array raises
TypeError. -/
theorem C2_witness :
    perform_operation ⟨Dtype.int32, [3], [1, 2, 3], [false, false, false]⟩ ("sum") =
      .error .typeError :=
  (C2_perform_operation_raises_typeerror ("sum") (by simp [OPERATION_FUNCS_keys])).1 _

/-- C5: evaluating the expected-result computation at a concrete input shows
it raises TypeError inside perform_operation before either negative-control
assertion can run, so the computation enforces neither invariant. -/
theorem C5_calculate_expected_result_typeerror :
    calculate_expected_result ⟨Dtype.int32, [3], [0, 1, 2], [false, false, false]⟩
      ("sum") none none Order.C none = .error .typeError := rfl

/-- C8: array generation and hole injection are deterministic.  The generator
reseeds the global stream (np.random.seed(10)) before drawing, so its result
is the same for any two incoming global-stream states — that is, independent
of any draws made between the calls and of execution order; and the hole
injector draws only from a freshly seeded default_rng(10) generator, so its
result is a function of its arguments alone. -/
theorem C8_reseed_determinism (σ ρ : Type) (np : NpRng σ) (prng : PRng ρ)
    (g1 g2 : σ) (dtype : Dtype) (shape : Option (List Nat)) (size : Option Nat)
    (missing : Option Missing) :
    generate_test_array np prng g1 dtype shape size missing =
      generate_test_array np prng g2 dtype shape size missing ∧
    ∀ (arr : MArr) (p : Rat) (fills : List Rat),
      make_holes prng arr p fills =
        make_holes_loop prng (p / (fills.length : Rat)) fills arr (prng.default_rng 10) :=
  ⟨rfl, fun _ _ _ => rfl⟩

/-- C10: constructing a MockResponse or MockErrorResponse always raises
AttributeError — both initializers read self.content for the content-length
header while the fresh instance's attribute map is still empty, before
BaseMockResponse.__init__ assigns it. -/
theorem C10_mock_init_attributeerror :
    (∀ (sc : Int) (ad orr : MArr) (ord : Order),
      MockResponse_init sc ad orr ord = .error .attributeError) ∧
    (∀ sc : Int, MockErrorResponse_init sc = .error .attributeError) :=
  ⟨fun _ _ _ _ => rfl, fun _ => rfl⟩

/-- C1 counterexample: OPERATION_FUNCS has no "mean" entry, and requesting
the mean of the four-ones 32-bit array raises KeyError instead of returning
the value 1 the claim promises. -/
theorem C1_counterexample :
    OPERATION_FUNCS ("mean") = none ∧
    perform_operation ⟨Dtype.int32, [4], [1, 1, 1, 1], [false, false, false, false]⟩
      ("mean") = .error .keyError :=
  ⟨rfl, rfl⟩

/-- C1 amended: the set of supported reduction operations is exactly
select, sum, count, min and max — mean is not supported — and the result
dtype policy is identity for select, min and max, the fixed 64-bit signed
integer for count, and the input dtype for sum (for min, max and sum on a
well-formed array that is not fully masked; a fully masked reduction yields
the np.ma.masked constant instead). -/
theorem C1_amended_operation_table :
    (∀ op : String, (OPERATION_FUNCS op).isSome ↔
      (op = "select" ∨ op = "sum" ∨ op = "count" ∨ op = "max" ∨ op = "min")) ∧
    (∀ (arr : MArr) (axis : Option Empty), (op_select arr axis).dtype = arr.dtype) ∧
    (∀ arr : MArr, (op_count arr none).dtype = Dtype.int64) ∧
    (∀ arr : MArr, arr.data.length = arr.mask.length → 0 < maCount arr →
      (op_sum arr none).dtype = arr.dtype ∧
      (op_max arr none).dtype = arr.dtype ∧
      (op_min arr none).dtype = arr.dtype) := by
  refine ⟨?_, fun _ _ => rfl, fun _ => rfl, ?_⟩
  · intro op
    unfold OPERATION_FUNCS
    split_ifs with h1 h2 h3 h4 h5 <;> simp_all
  · intro arr hlen hpos
    cases hvals : unmaskedVals arr with
    | nil => exact absurd hvals (unmaskedVals_ne_nil arr hlen hpos)
    | cons v vs =>
      refine ⟨?_, ?_, ?_⟩ <;>
        simp [op_sum, op_max, op_min, maSum, maMax, maMin, hvals]

/-- Whether an embedded Python computation returned normally. -/
def exceptOk {ε α : Type} : Except ε α → Bool
| .ok _ => true
| .error _ => false

/-- The filter loop returns normally exactly when every listed filter is
"shuffle". -/
lemma apply_filters_ok_iff (ext : ExternalCodecs) (element_size : Nat) :
    ∀ (fs : List String) (d : List Nat),
      exceptOk (apply_filters ext element_size fs d) = true ↔
        ∀ f ∈ fs, f = "shuffle" := by
  intro fs
  induction fs with
  | nil => intro d; simp [apply_filters, exceptOk]
  | cons f fs ih =>
    intro d
    by_cases hf : f = "shuffle"
    · subst hf
      simp only [apply_filters, if_pos rfl]
      simp only [List.mem_cons, forall_eq_or_imp, true_and]
      exact ih _
    · simp [apply_filters, hf, exceptOk]

/-- C7: filter_pipeline raises an error exactly when the compression name is
neither None, gzip nor zlib, or some listed filter is not "shuffle"; on every
other input it returns normally, gzip and zlib each apply exactly their own
codec, and None applies no compression at all. -/
theorem C7_filter_pipeline_error_iff (ext : ExternalCodecs) (data : List Nat)
    (compression : Option String) (filters : Option (List String))
    (element_size : Nat) :
    (exceptOk (filter_pipeline ext data compression filters element_size) = true ↔
      ((compression = none ∨ compression = some "gzip" ∨ compression = some "zlib") ∧
        ∀ f ∈ filters.getD [], f = "shuffle")) ∧
    (∀ d : List Nat, apply_filters ext element_size (filters.getD []) data = .ok d →
      filter_pipeline ext data none filters element_size = .ok d ∧
      filter_pipeline ext data (some "gzip") filters element_size =
        .ok (ext.gzipCompress d) ∧
      filter_pipeline ext data (some "zlib") filters element_size =
        .ok (ext.zlibCompress d)) := by
  constructor
  · cases happ : apply_filters ext element_size (filters.getD []) data with
    | error e =>
      have hng : ¬ ∀ f ∈ filters.getD [], f = "shuffle" := by
        intro hall
        have hiff := (apply_filters_ok_iff ext element_size (filters.getD []) data).mpr hall
        rw [happ] at hiff
        simp [exceptOk] at hiff
      simp [filter_pipeline, happ, exceptOk, hng]
    | ok d =>
      have hall : ∀ f ∈ filters.getD [], f = "shuffle" := by
        apply (apply_filters_ok_iff ext element_size (filters.getD []) data).mp
        rw [happ]
        rfl
      by_cases hg : compression = some "gzip"
      · subst hg
        simp only [filter_pipeline, happ, exceptOk, if_pos rfl]
        simpa using hall
      · by_cases hz : compression = some "zlib"
        · subst hz
          simp only [filter_pipeline, happ, exceptOk, hg, if_false, if_pos rfl]
          simpa using hall
        · rcases compression with _ | c
          · simp only [filter_pipeline, happ, exceptOk]
            simpa using hall
          · simp [filter_pipeline, happ, exceptOk, hall, hg, hz]
  · intro d hd
    refine ⟨?_, ?_, ?_⟩ <;> simp [filter_pipeline, hd]

/-- Identity stand-ins for the external codecs, for concrete evaluation. -/
def extId : ExternalCodecs := ⟨fun l => l, fun l => l, fun _ l => l⟩

/-- C7 witness: with a shuffle filter, the pipeline returns normally for each
of the three accepted compression arguments at a concrete byte string. -/
theorem C7_witness :
    filter_pipeline extId [1, 2, 3] none (some ["shuffle"]) 4 = .ok [1, 2, 3] ∧
    filter_pipeline extId [1, 2, 3] (some "gzip") (some ["shuffle"]) 4 = .ok [1, 2, 3] ∧
    filter_pipeline extId [1, 2, 3] (some "zlib") (some ["shuffle"]) 4 = .ok [1, 2, 3] :=
  (C7_filter_pipeline_error_iff extId [1, 2, 3] none (some ["shuffle"]) 4).2 [1, 2, 3] rfl

/-- C6: whenever the encoder returns, the object bytes are exactly the
`offset` leading padding bytes, then the filtered-and-compressed payload
(the filter pipeline applied to the serialized — and, when the requested
byte order differs from native, byte-swapped — data), then exactly the
`trailing` trailing padding bytes; and the returned size is the payload's
byte length, both paddings excluded. -/
theorem C6_generate_object_data_layout (ext : ExternalCodecs)
    (urandom : Nat → List Nat) (sysByteorder : String) (data : MArr)
    (offset trailing : Option Nat) (compression : Option String)
    (filters : Option (List String)) (dtype : Dtype) (byte_order : Option String)
    (obj : List Nat) (n : Nat)
    (hlen : ∀ k, (urandom k).length = k)
    (hok : generate_object_data ext urandom sysByteorder data offset trailing
      compression filters dtype byte_order = .ok (obj, n)) :
    ∃ payload,
      filter_pipeline ext (objectDataBytes data byte_order sysByteorder)
        compression filters (itemsize dtype) = .ok payload ∧
      obj = urandom (offset.getD 0) ++ payload ++ urandom (trailing.getD 0) ∧
      (urandom (offset.getD 0)).length = offset.getD 0 ∧
      (urandom (trailing.getD 0)).length = trailing.getD 0 ∧
      n = payload.length := by
  simp only [generate_object_data] at hok
  cases hfp : filter_pipeline ext (objectDataBytes data byte_order sysByteorder)
      compression filters (itemsize dtype) with
  | error e => rw [hfp] at hok; exact Except.noConfusion hok
  | ok payload =>
    rw [hfp] at hok
    injection hok with h
    rw [Prod.ext_iff] at h
    exact ⟨payload, rfl, h.1.symm, hlen _, hlen _, h.2.symm⟩

/-- Deterministic stand-in for `os.urandom`, for concrete evaluation. -/
def ur7 : Nat → List Nat := fun k => List.replicate k 7

/-- A concrete two-element int32 array for the encoder witness. -/
def c6data : MArr := ⟨Dtype.int32, [2], [1, 2], [false, false]⟩

/-- C6 witness: at a concrete array with offset 3 and trailing 2, the object
bytes decompose into the two paddings around the 8-byte payload. -/
theorem C6_witness :
    ∃ payload,
      filter_pipeline extId (objectDataBytes c6data none "little") none none
        (itemsize Dtype.int32) = .ok payload ∧
      ([7, 7, 7, 1, 0, 0, 0, 2, 0, 0, 0, 7, 7] : List Nat) =
        ur7 ((some 3 : Option Nat).getD 0) ++ payload ++ ur7 ((some 2 : Option Nat).getD 0) ∧
      (ur7 ((some 3 : Option Nat).getD 0)).length = (some 3 : Option Nat).getD 0 ∧
      (ur7 ((some 2 : Option Nat).getD 0)).length = (some 2 : Option Nat).getD 0 ∧
      8 = payload.length :=
  C6_generate_object_data_layout extId ur7 "little" c6data (some 3) (some 2)
    none none Dtype.int32 none [7, 7, 7, 1, 0, 0, 0, 2, 0, 0, 0, 7, 7] 8
    (fun k => List.length_replicate k 7) rfl

/-- `getD` of a mapped range below the bound evaluates the function. -/
lemma getD_range_map {α : Type} (f : Nat → α) (n i : Nat) (d : α) (h : i < n) :
    ((List.range n).map f).getD i d = f i := by
  rw [List.getD_eq_getElem?_getD, List.getElem?_map, List.getElem?_range h]
  rfl

/-- `getD false` of an all-false replicate mask is false at every index. -/
lemma getD_replicate_false (n i : Nat) :
    (List.replicate n false).getD i false = false := by
  rw [List.getD_eq_getElem?_getD, List.getElem?_replicate]
  split <;> rfl

/-- `fill_step` keeps the element count. -/
lemma fill_step_data_length (arr : MArr) (mask : List Bool) (v : Rat) :
    (fill_step arr mask v).data.length = arr.data.length := by
  simp [fill_step]

/-- The hole-injection loop writes, at each in-range position, the fill value
of the last drawn mask selecting that position, and leaves a position
selected by no mask at its input value. -/
lemma make_holes_loop_last_wins {ρ : Type} (prng : PRng ρ) (p : Rat) :
    ∀ (fills : List Rat) (arr : MArr) (rng : ρ) (i : Nat),
      arr.mask = List.replicate arr.data.length false →
      i < arr.data.length →
      (make_holes_loop prng p fills arr rng).data.getD i 0 =
        (match ((drawMasks prng arr.shape p fills.length rng).zip fills).reverse.find?
            (fun mv => mv.1.getD i false) with
         | some mv => mv.2
         | none => arr.data.getD i 0) := by
  intro fills
  induction fills with
  | nil =>
    intro arr rng i hm hi
    simp [make_holes_loop, drawMasks]
  | cons v vs ih =>
    intro arr rng i hm hi
    have hshape : (fill_step arr (prng.choice rng arr.shape p).1 v).shape = arr.shape := rfl
    have hlen := fill_step_data_length arr (prng.choice rng arr.shape p).1 v
    have hmask : (fill_step arr (prng.choice rng arr.shape p).1 v).mask =
        List.replicate (fill_step arr (prng.choice rng arr.shape p).1 v).data.length false := by
      rw [hlen]; rfl
    have hstep := ih (fill_step arr (prng.choice rng arr.shape p).1 v)
      (prng.choice rng arr.shape p).2 i hmask (by rw [hlen]; exact hi)
    rw [make_holes_loop, hstep, hshape]
    rw [show drawMasks prng arr.shape p (v :: vs).length rng =
      (prng.choice rng arr.shape p).1 ::
        drawMasks prng arr.shape p vs.length (prng.choice rng arr.shape p).2 from rfl]
    rw [List.zip_cons_cons, List.reverse_cons, List.find?_append]
    cases hfind : ((drawMasks prng arr.shape p vs.length
        (prng.choice rng arr.shape p).2).zip vs).reverse.find?
        (fun mv => mv.1.getD i false) with
    | some mv => rfl
    | none =>
      simp only [Option.none_or]
      rw [show (fill_step arr (prng.choice rng arr.shape p).1 v).data.getD i 0 =
        (if arr.mask.getD i false || ((prng.choice rng arr.shape p).1).getD i false
          then v else arr.data.getD i 0) from getD_range_map _ _ i 0 hi]
      rw [hm, getD_replicate_false]
      simp only [Bool.false_or]
      cases hsel : ((prng.choice rng arr.shape p).1).getD i false with
      | true =>
        have hsel' : (prng.choice rng arr.shape p).1[i]?.getD false = true := by
          rw [← List.getD_eq_getElem?_getD]; exact hsel
        simp [List.find?, hsel']
      | false =>
        have hsel' : (prng.choice rng arr.shape p).1[i]?.getD false = false := by
          rw [← List.getD_eq_getElem?_getD]; exact hsel
        simp [List.find?, hsel']

/-- C9 amended: the hole injector splits p across the k sentinels
(probability p/k each), draws one reproducible boolean mask per sentinel over
the array's shape from the freshly seeded default_rng(10) stream, and
overwrites the selected positions in sentinel order — so a position selected
by several masks ends with the last such sentinel's value, and a position
selected by no mask keeps the input value. -/
theorem C9_make_holes_last_sentinel_wins (ρ : Type) (prng : PRng ρ) (arr : MArr)
    (p_missing : Rat) (fills : List Rat) (i : Nat)
    (hm : arr.mask = List.replicate arr.data.length false)
    (hi : i < arr.data.length) :
    (make_holes prng arr p_missing fills).data.getD i 0 =
      (match ((holeMasks prng arr.shape p_missing fills.length).zip fills).reverse.find?
          (fun mv => mv.1.getD i false) with
       | some mv => mv.2
       | none => arr.data.getD i 0) :=
  make_holes_loop_last_wins prng (p_missing / (fills.length : Rat)) fills arr
    (prng.default_rng 10) i hm hi

/-- A random source whose every mask selects everything: a concrete
instantiation of the external PCG64 collaborator under which two sentinel
masks overlap. -/
def prngTrue : PRng Nat :=
  ⟨fun _ => 0, fun s shape _p => (List.replicate shape.prod true, s + 1)⟩

/-- C9 counterexample: with two sentinels 5 and 7 and overlapping masks, the
first sentinel's mask selects position 0, yet the final array holds 7 there,
not 5 — the injector does not leave each mask's positions at that mask's own
sentinel value. -/
theorem C9_counterexample :
    (holeMasks prngTrue [1] (1 / 5) 2).getD 0 [] = [true] ∧
    (make_holes prngTrue ⟨Dtype.int32, [1], [1], [false]⟩ (1 / 5) [5, 7]).data = [7] ∧
    (7 : Rat) ≠ 5 := by
  refine ⟨rfl, rfl, by norm_num⟩

/-- C9 witness: the amended statement evaluated at a concrete one-sentinel
call. -/
theorem C9_witness :
    (make_holes prngTrue ⟨Dtype.int32, [2], [3, 4], [false, false]⟩ (1 / 5) [9]).data.getD 0 0 =
      (match ((holeMasks prngTrue [2] (1 / 5) ([(9 : Rat)] : List Rat).length).zip
          [(9 : Rat)]).reverse.find? (fun mv => mv.1.getD 0 false) with
       | some mv => mv.2
       | none => ([(3 : Rat), 4] : List Rat).getD 0 0) :=
  C9_make_holes_last_sentinel_wins Nat prngTrue
    ⟨Dtype.int32, [2], [3, 4], [false, false]⟩ (1 / 5) [9] 0 rfl (by decide)

/-- C4: the validator accepts a response only if the declared
x-activestorage-dtype header equals the request's input dtype for select,
sum, min and max, and equals the fixed 64-bit signed integer name "int64"
for count. -/
theorem C4_dtype_header_policy (resp : Response) (request_dtype operation : String)
    (order : Order) (array_data operation_result : MArr)
    (hacc : validator_accepts resp request_dtype operation order array_data
      operation_result = true) :
    ((operation = "select" ∨ operation = "sum" ∨ operation = "min" ∨ operation = "max") →
      resp.dtype_header = request_dtype) ∧
    (operation = "count" → resp.dtype_header = "int64") := by
  simp only [validator_accepts, Bool.and_eq_true, beq_iff_eq] at hacc
  have hdt := hacc.1.1.1.1.1.2
  constructor
  · rintro (rfl | rfl | rfl | rfl) <;> simpa using hdt
  · rintro rfl
    simpa using hdt

/-- A concrete response the validator accepts: a 0-dimensional int32 sum
result with value 5. -/
def c4resp : Response := ⟨200, [5, 0, 0, 0], "int32", [], "2", "little", "4"⟩

/-- The concrete validated array for the C4/C3 witnesses. -/
def c4arr : MArr := ⟨Dtype.int32, [2], [1, 2], [false, false]⟩

/-- The concrete expected result for the C4/C3 witnesses. -/
def c4res : MArr := ⟨Dtype.int32, [], [5], [false]⟩

/-- C4 witness: the dtype policy evaluated at a concrete accepted response. -/
theorem C4_witness :
    (("sum" = "select" ∨ "sum" = "sum" ∨ "sum" = "min" ∨ "sum" = "max") →
      c4resp.dtype_header = "int32") ∧
    ("sum" = "count" → c4resp.dtype_header = "int64") :=
  C4_dtype_header_policy c4resp ("int32") ("sum") Order.C c4arr c4res (by decide)

/-- C3 amended: whenever the element-count header check is enabled, the
validator accepts a response only if the declared x-activestorage-count
header equals str(ma.count(array_data)) for the array it validates against —
which in the pipeline is the post-mask, post-selection array that
calculate_expected_result returns, not the original unsliced array. -/
theorem C3_count_header_postselection (resp : Response)
    (request_dtype operation : String) (order : Order)
    (array_data operation_result : MArr)
    (hflag : TEST_X_ACTIVESTORAGE_COUNT_HEADER = true)
    (hacc : validator_accepts resp request_dtype operation order array_data
      operation_result = true) :
    resp.count_header = toString (maCount array_data) := by
  simp only [validator_accepts, Bool.and_eq_true, beq_iff_eq] at hacc
  have hcnt := hacc.1.1.1.2
  simpa [TEST_X_ACTIVESTORAGE_COUNT_HEADER] using hcnt

/-- C3 witness: the count-header property evaluated at a concrete accepted
response. -/
theorem C3_witness : c4resp.count_header = toString (maCount c4arr) :=
  C3_count_header_postselection c4resp ("int32") ("sum") Order.C c4arr c4res rfl
    (by decide)

/-- The generated 100-element int64 array of the C3 counterexample, before
any selection. -/
def c3arr : MArr :=
  ⟨Dtype.int64, [100], (List.range 100).map (fun i => (i : Rat)),
    List.replicate 100 false⟩

/-- The post-selection array `data[slice(-10, -50, -4)]` of the C3
counterexample: ten elements. -/
def c3selected : MArr :=
  ⟨Dtype.int64, [10], [90, 86, 82, 78, 74, 70, 66, 62, 58, 54],
    List.replicate 10 false⟩

/-- A response carrying the post-selection count 10, which the validator
accepts. -/
def c3resp : Response :=
  ⟨200, arr_tobytes c3selected Order.C, "int64", [10], "10", "little", "80"⟩

set_option maxRecDepth 8000 in
/-- C3 counterexample: for the suite's shape [100] with selection
[[-10, -50, -4]] and no masking, the array the count check validates against
is the ten-element post-selection array, and the validator accepts the
header "10" — which differs from "100", the unmasked-element count of the
original, unsliced array.  The claim's required value is therefore not what
an accepted response declares. -/
theorem C3_counterexample :
    reshape_np c3arr (some [100]) Order.C = .ok c3arr ∧
    select_np c3arr [(-10, -50, -4)] = .ok c3selected ∧
    maCount c3arr = 100 ∧
    maCount c3selected = 10 ∧
    validator_accepts c3resp ("int64") ("select") Order.C c3selected c3selected = true ∧
    c3resp.count_header ≠ toString (maCount c3arr) := by
  refine ⟨rfl, rfl, by decide, by decide, by decide, by decide⟩

end SASCS
